import Mathlib

/-!
Verification of the EirGrid CP966 PSSE contingency-analysis scripts.

This file gives a shallow embedding, in Lean, of the compliance evaluator,
the contingency executor and the reactive-compensation search implemented in
`optimisation/psse.py` and driven by `Main.py`, and proves (or refutes)
properties of that code.

Modelling conventions:
* pandas/numpy floating-point values are embedded as `Option ℚ`: `some q` is a
  numeric value and `none` is the NaN sentinel stored for non-convergent
  results.  Every comparison against NaN is `false`, exactly as in
  numpy/pandas.
* A DataFrame column keyed by contingency name is an association list
  `List (String × _)`; column assignment (`df[name] = ...`) replaces any
  existing column of that name.
* The external PSSE solver is an oracle: solve outcomes, voltage readings and
  islanded-bus reports are inputs to the embedded functions, mirroring that
  the source reads them from the process-wide solver state.
-/

/-- Comparison `a <= b` between possibly-NaN values: false whenever either
side is NaN, as in numpy/pandas. -/
def vleOpt : Option ℚ → Option ℚ → Bool
  | some a, some b => decide (a ≤ b)
  | _, _ => false

/-- Association-list lookup with decidable key equality; first match wins,
as for a pandas column/row label lookup. -/
def alookup {κ α : Type} [DecidableEq κ] : List (κ × α) → κ → Option α
  | [], _ => none
  | p :: rest, k => if p.1 = k then some p.2 else alookup rest k

/-- Overwrite-or-append assignment of a row/column label, the effect of
`df.loc[k] = v` resp. `df[k] = v` on the labels we track: an existing label
is overwritten in place, otherwise the label is appended. -/
def setRow {κ α : Type} [DecidableEq κ] : List (κ × α) → κ → α → List (κ × α)
  | [], k, v => [(k, v)]
  | p :: rest, k, v => if p.1 = k then (k, v) :: rest else p :: setRow rest k v

theorem alookup_append {κ α : Type} [DecidableEq κ] (l₁ l₂ : List (κ × α)) (k : κ) :
    alookup (l₁ ++ l₂) k =
      match alookup l₁ k with
      | some v => some v
      | none => alookup l₂ k := by
  induction l₁ with
  | nil => simp [alookup]
  | cons p rest ih =>
      by_cases h : p.1 = k <;> simp [alookup, h, ih]

theorem alookup_setRow_self {κ α : Type} [DecidableEq κ] (t : List (κ × α)) (k : κ) (v : α) :
    alookup (setRow t k v) k = some v := by
  induction t with
  | nil => simp [setRow, alookup]
  | cons p rest ih =>
      by_cases h : p.1 = k <;> simp [setRow, alookup, h, ih]

theorem alookup_setRow_ne {κ α : Type} [DecidableEq κ] (t : List (κ × α)) (k n : κ) (v : α)
    (h : n ≠ k) : alookup (setRow t k v) n = alookup t n := by
  have hkn : ¬(k = n) := fun hc => h hc.symm
  induction t with
  | nil => simp [setRow, alookup, hkn]
  | cons p rest ih =>
      by_cases hp : p.1 = k
      · simp [setRow, alookup, hp, hkn, ih]
      · by_cases hn : p.1 = n <;> simp [setRow, alookup, hp, hn, h, ih]

theorem alookup_map_mem {α : Type} (names : List String) (f : String → α) (n : String)
    (h : n ∈ names) : alookup (names.map (fun m => (m, f m))) n = some (f n) := by
  induction names with
  | nil => cases h
  | cons m rest ih =>
      by_cases hm : m = n
      · subst hm; simp [alookup]
      · rcases List.mem_cons.mp h with rfl | hmem
        · exact absurd rfl hm
        · simp [alookup, hm, ih hmem]

theorem alookup_map_not_mem {α : Type} (names : List String) (f : String → α) (n : String)
    (h : n ∉ names) : alookup (names.map (fun m => (m, f m))) n = none := by
  induction names with
  | nil => rfl
  | cons m rest ih =>
      have hm : m ≠ n := fun hc => h (by simp [hc])
      have hrest : n ∉ rest := fun hc => h (List.mem_cons_of_mem m hc)
      simp [alookup, hm, ih hrest]

/-! ## Constants from `optimisation/constants.py` -/

/-- EirGridThresholds.reactor_step_change_limit. -/
def reactorStepChangeLimit : ℚ := 3 / 100

/-- EirGridThresholds.cont_step_change_limit. -/
def contStepChangeLimit : ℚ := 1 / 10

/-- EirGridThresholds.rating_threshold. -/
def ratingThreshold : ℚ := 0

/-- EirGridThresholds.steady_state_limits: list of
((nominal lower, nominal upper), (pu lower limit, pu upper limit)). -/
def steadyStateLimits : List ((ℚ × ℚ) × (ℚ × ℚ)) :=
  [((109, 111), (99 / 110, 120 / 110)),
   ((219, 221), (200 / 220, 240 / 220)),
   ((250, 276), (250 / 275, 303 / 275)),
   ((379, 401), (360 / 380, 410 / 380))]

/-- Contingency.bc. -/
def bcName : String := "BASE_CASE"

/-- Contingency.non_convergent. -/
def nonConvergentMsg : String := "Non-Convergent"

/-- Contingency.convergent. -/
def convergentMsg : String := "Convergent"

/-- Contingency.non_convergent_vstep. -/
def nonConvergentVstepMsg : String := "Non-Convergent Step Change"

/-- Contingency.non_convergent_vsteady. -/
def nonConvergentVsteadyMsg : String := "Non-Convergent Steady State"

/-- Contingency.error. -/
def errorMsg : String := "ERROR"

/-- ReactiveCompensationLimits.max_iterations. -/
def maxIterationsRC : ℕ := 100

/-- ReactiveCompensationLimits.vmax_target. -/
def vmaxTarget : ℚ := 1078947 / 1000000

/-- ReactiveCompensationLimits.vmin_target. -/
def vminTarget : ℚ := 948 / 1000

/-- ReactiveCompensationLimits.v_step = (vmax_target - vmin_target) / max_iterations. -/
def vStepRC : ℚ := (vmaxTarget - vminTarget) / (maxIterationsRC : ℚ)

/-- ReactiveCompensationLimits.q_max. -/
def qMaxRC : ℚ := -1000

/-- ReactiveCompensationLimits.q_min. -/
def qMinRC : ℚ := 0

/-- ReactiveCompensationLimits.q_step. -/
def qStepRC : ℚ := -5

/-- ReactiveCompensationLimits.test_target_bus. -/
def testTargetBus : Bool := false

/-- ReactiveCompensationLimits.target_shunts. -/
def targetShunts : Bool := false

/-! ## Convergence message (`Contingency.convergence_message`, psse.py 1344-1365) -/

/-- Literal translation of the if/elif chain of `Contingency.convergence_message`,
as a function of the pair (convergent_v_step, convergent_v_steady). -/
def convergenceMessage (convergentVStep convergentVSteady : Bool) : String :=
  if !convergentVStep && !convergentVSteady then nonConvergentMsg
  else if convergentVSteady && convergentVStep then convergentMsg
  else if convergentVSteady && !convergentVStep then nonConvergentVstepMsg
  else if convergentVStep && !convergentVSteady then nonConvergentVsteadyMsg
  else errorMsg

/-- C5: the convergence message recorded for a contingency is exactly determined
by the pair (step-change-convergent, steady-state-convergent): both true yields
"Convergent", both false yields "Non-Convergent", step true / steady false
yields "Non-Convergent Steady State", and step false / steady true yields
"Non-Convergent Step Change". -/
theorem spec_C5_convergence_message :
    convergenceMessage true true = "Convergent" ∧
    convergenceMessage false false = "Non-Convergent" ∧
    convergenceMessage true false = "Non-Convergent Steady State" ∧
    convergenceMessage false true = "Non-Convergent Step Change" :=
  ⟨rfl, rfl, rfl, rfl⟩

/-! ## Loading compliance (`BranchData.check_compliance` psse.py 295-348,
`Tx3WndData.check_compliance` psse.py 623-665) -/

/-- Column of per-contingency loading values; a missing column would raise a
KeyError in the source, so results are only meaningful for present columns. -/
def getColQ (cols : List (String × List ℚ)) (n : String) : List ℚ :=
  (alookup cols n).getD []

/-- Per-row condition of `BranchData.check_compliance` (psse.py 328-330):
loading < RATEA, or the rating threshold is exactly equal to RATEA. -/
def branchLoadingCondition (threshold ratea loading : ℚ) : Bool :=
  decide (loading < ratea) || decide (threshold = ratea)

/-- `BranchData.check_compliance`: one boolean per contingency name, true when
the condition holds at every row (`all` of the numpy where-array). -/
def branchCheckCompliance (threshold : ℚ) (ratea : List ℚ)
    (cols : List (String × List ℚ)) (names : List String) : List (String × Bool) :=
  names.map (fun n =>
    (n, (ratea.zip (getColQ cols n)).all (fun p => branchLoadingCondition threshold p.1 p.2)))

/-- Per-row condition of `Tx3WndData.check_compliance` (psse.py 648-650):
loading < RATEA, or RATEA less than or equal to the rating threshold. -/
def tx3wndLoadingCondition (threshold ratea loading : ℚ) : Bool :=
  decide (loading < ratea) || decide (ratea ≤ threshold)

/-- `Tx3WndData.check_compliance`: one boolean per contingency name. -/
def tx3wndCheckCompliance (threshold : ℚ) (ratea : List ℚ)
    (cols : List (String × List ℚ)) (names : List String) : List (String × Bool) :=
  names.map (fun n =>
    (n, (ratea.zip (getColQ cols n)).all (fun p => tx3wndLoadingCondition threshold p.1 p.2)))

/-- The `items_with_no_rating` filter of `BranchData.check_compliance`
(psse.py 304-305): rows whose RATEA is less than or equal to the threshold,
which the function then logs as "ignored from checking for compliance". -/
def branchItemsWithNoRating (threshold : ℚ) (ratea : List ℚ) : List ℚ :=
  ratea.filter (fun r => decide (r ≤ threshold))

/-- Modelled from the spec: an element whose applicable rating is less than or
equal to the configured threshold is excluded from the check regardless of its
loading; otherwise compliance requires loading strictly less than rating. -/
def specLoadingCondition (threshold ratea loading : ℚ) : Bool :=
  if ratea ≤ threshold then true else decide (loading < ratea)

/-- C2: a circuit whose RATEA (-1 MVA) is strictly below the 0 MVA rating
threshold is reported by the branch check itself as "ignored from checking for
compliance" (the items-with-no-rating filter uses less-or-equal), and both the
spec and the sibling three-winding check exclude it, yet the branch compliance
condition, which only excludes ratings exactly equal to the threshold, marks
the contingency non-compliant. -/
theorem spec_C2_rating_exclusion_bug :
    branchItemsWithNoRating ratingThreshold [-1] = [-1] ∧
    alookup (branchCheckCompliance ratingThreshold [-1] [("CONT_A", [50])] ["CONT_A"])
      "CONT_A" = some false ∧
    alookup (tx3wndCheckCompliance ratingThreshold [-1] [("CONT_A", [50])] ["CONT_A"])
      "CONT_A" = some true ∧
    specLoadingCondition ratingThreshold (-1) 50 = true := by
  refine ⟨?_, ?_, ?_, ?_⟩ <;> decide

/-! ## Steady-state within-limits check (`BusData.check_within_limits`,
psse.py 1143-1164) -/

/-- One row of `df_voltage_steady` as read by `check_within_limits`: bus
number, this contingency's voltage, and the per-bus band limits (NaN when the
nominal voltage matched no band). -/
structure SteadyRow where
  bus : ℤ
  voltage : Option ℚ
  lowerLimit : Option ℚ
  upperLimit : Option ℚ
deriving DecidableEq

/-- `BusData.check_within_limits` (psse.py 1154-1159): drop the buses in the
ignore list, then require `voltage <= upper_limit` at every remaining bus.
The source compares only against the upper limit. -/
def checkWithinLimits (rows : List SteadyRow) (busbarsToIgnore : List ℤ) : Bool :=
  (rows.filter (fun r => decide (r.bus ∉ busbarsToIgnore))).all
    (fun r => vleOpt r.voltage r.upperLimit)

/-- Modelled from the spec: the within-limits check returns true iff every
in-scope bus voltage lies within both the lower and the upper per-unit limit
of its band. -/
def specWithinBandCheck (rows : List SteadyRow) (busbarsToIgnore : List ℤ) : Bool :=
  (rows.filter (fun r => decide (r.bus ∉ busbarsToIgnore))).all
    (fun r => vleOpt r.lowerLimit r.voltage && vleOpt r.voltage r.upperLimit)

/-- C4 fails on the code: a bus at 0.5 pu with band (0.9, 1.1) violates its
lower limit, so the spec's both-limits check rejects it, but
`check_within_limits` accepts it because only the upper limit is compared. -/
theorem spec_C4_counterexample :
    checkWithinLimits [⟨1, some (mkRat 1 2), some (mkRat 9 10), some (mkRat 11 10)⟩] [] = true ∧
    specWithinBandCheck [⟨1, some (mkRat 1 2), some (mkRat 9 10), some (mkRat 11 10)⟩] []
      = false := by
  exact ⟨by decide, by decide⟩

/-- C4 as amended: the within-limits check relied on by the reactive
compensation search returns true iff every non-excluded bus voltage is less
than or equal to its upper per-unit limit; the lower limit is not checked, so
undervoltage never blocks successful termination. -/
theorem spec_C4_upper_limit_only (rows : List SteadyRow) (busbarsToIgnore : List ℤ) :
    checkWithinLimits rows busbarsToIgnore = true ↔
      ∀ r ∈ rows, r.bus ∉ busbarsToIgnore → vleOpt r.voltage r.upperLimit = true := by
  constructor
  · intro h r hr hig
    have := List.all_eq_true.mp h r (List.mem_filter.mpr ⟨hr, by simpa using hig⟩)
    exact this
  · intro h
    refine List.all_eq_true.mpr ?_
    intro r hr
    rcases List.mem_filter.mp hr with ⟨hmem, hig⟩
    exact h r hmem (by simpa using hig)

/-! ## Bus voltage snapshot tables (`BusData`, psse.py 825-1164) -/

/-- The step-change (or steady-state) voltage DataFrame of `BusData`: the
base-case PU column captured at initialisation (numeric, one entry per bus
row), one `Option ℚ` column per contingency, and whether the two bookkeeping
rows labelled Compliant and Voltage Step Limit are present in the row index,
inserted by a previous check_compliance call (psse.py 1131-1135).  Those rows
hold NaN in the PU column; check_compliance filters them out of its minuend
(psse.py 1115) but subtracts the full PU column, so once present they
re-enter the comparison through pandas' index alignment. -/
structure BusVoltageTable where
  pu : List ℚ
  cols : List (String × List (Option ℚ))
  complianceRowsInserted : Bool

/-- Column of the table for a contingency name; a missing column would raise
a KeyError in the source. -/
def getCol (t : BusVoltageTable) (n : String) : List (Option ℚ) :=
  (alookup t.cols n).getD []

/-- `BusData.update_voltages` with non_convergence=True (psse.py 1049-1063):
the whole column for this contingency is set to the NaN sentinel. -/
def updateVoltagesNonConvergent (t : BusVoltageTable) (name : String) : BusVoltageTable :=
  { t with cols := setRow t.cols name (List.replicate t.pu.length none) }

/-- `BusData.update_voltages` with non_convergence=False: the column is set to
the voltages just read back from the solved case. -/
def updateVoltagesFrom (t : BusVoltageTable) (name : String) (vs : List ℚ) : BusVoltageTable :=
  { t with cols := setRow t.cols name (vs.map some) }

/-- Per-bus step-change condition of `BusData.check_compliance`
(psse.py 1117-1121): abs(contingency voltage - base PU voltage) <= limit,
false whenever the contingency value is the NaN sentinel. -/
def stepConditionRow (limit : ℚ) (base : ℚ) (v : Option ℚ) : Bool :=
  match v with
  | some x => decide (|x - base| ≤ limit)
  | none => false

/-- `BusData.check_compliance` with a voltage_step_limit (psse.py 1105-1139),
including its mutation of df_voltage_step.  The minuend
`self.df_voltage_step.loc[~bad_df, cont_names]` keeps only the bus rows
(psse.py 1115-1117), but the subtrahend of `.sub(..., axis=0)` is the full PU
column, so once the Compliant and Voltage Step Limit bookkeeping rows are in
the index (inserted by an earlier call), pandas' outer-join alignment
re-introduces them into df_volt_step as NaN rows, whose comparison against
the limit is False, and the `all` over the rows of the aligned frame then
fails for every checked contingency.  Returns the per-contingency booleans
together with the updated table: a call with a nonempty name list inserts the
two bookkeeping rows (psse.py 1131-1135). -/
def busCheckComplianceStep (t : BusVoltageTable) (names : List String) (limit : ℚ) :
    List (String × Bool) × BusVoltageTable :=
  (names.map (fun n =>
      (n, !t.complianceRowsInserted &&
        (t.pu.zip (getCol t n)).all (fun p => stepConditionRow limit p.1 p.2))),
   { t with complianceRowsInserted := t.complianceRowsInserted || !names.isEmpty })

/-! ## Contingency definitions and classification (`Contingency`, psse.py
1301-1342, and `Main.main`, Main.py 190-232) -/

/-- One element row of a contingency definition.  `switchOk` is the success
flag the solver collaborator reports when this element is switched
(psse.py `change_state`). -/
structure SwitchRow where
  switchOk : Bool
deriving DecidableEq

/-- A contingency definition: the subsets of elements to switch, per type,
plus the contingency name. -/
structure ContingencyDef where
  name : String
  circuits : List SwitchRow
  tx2 : List SwitchRow
  tx3 : List SwitchRow
  busbars : List SwitchRow
  fixedShunts : List SwitchRow
  switchedShunts : List SwitchRow
deriving DecidableEq

/-- `Contingency.__init__` (psse.py 1338-1342): a contingency is a
voltage-control contingency iff its circuits, tx2, tx3 and busbars subsets are
all empty (the shunt subsets are not consulted). -/
def voltageControlContingency (c : ContingencyDef) : Bool :=
  c.circuits.isEmpty && c.tx2.isEmpty && c.tx3.isEmpty && c.busbars.isEmpty

/-- All element rows of a contingency in the order `setup_contingency`
iterates them (psse.py 1415-1438). -/
def allSwitchRows (c : ContingencyDef) : List SwitchRow :=
  c.circuits ++ c.tx2 ++ c.tx3 ++ c.busbars ++ c.fixedShunts ++ c.switchedShunts

/-- `Contingency.setup_contingency` (psse.py 1389-1455): the base case is
marked set up without any switching; otherwise every element is switched and
setup_correctly is the conjunction of the reported success flags. -/
def setupContingency (c : ContingencyDef) : Bool :=
  if c.name = bcName then true
  else (allSwitchRows c).all (fun r => r.switchOk)

/-- The per-contingency partition made in `Main.main` (Main.py 190-196):
voltage-control contingencies go to shunt_switching, all others to
circuit_switching, in processing order. -/
def classifyContingencies (cs : List ContingencyDef) : List String × List String :=
  ((cs.filter (fun c => !voltageControlContingency c)).map ContingencyDef.name,
   (cs.filter (fun c => voltageControlContingency c)).map ContingencyDef.name)

/-- The combined step-change compliance table built in `Main.main`
(Main.py 223-232): check the circuit-switching names against the 0.10 pu
limit on the shared df_voltage_step, then the shunt-switching names against
the 0.03 pu limit on the table as mutated by the first call, concatenate,
and set the BASE_CASE row to True. -/
def mainStepComplianceTable (t : BusVoltageTable)
    (circuitSwitching shuntSwitching : List String) : List (String × Bool) :=
  let r1 := busCheckComplianceStep t circuitSwitching contStepChangeLimit
  let r2 := busCheckComplianceStep r1.2 shuntSwitching reactorStepChangeLimit
  setRow (r1.1 ++ r2.1) bcName true

/-- The concrete failing input for C1: one bus with base voltage 1.0 pu, one
circuit-switching contingency CONT_A and one shunt-only contingency SHUNT_C,
both with step-change voltage 1.0 pu at the bus, i.e. zero deviation
everywhere. -/
def c1FailingTable : BusVoltageTable :=
  ⟨[1], [("CONT_A", [some 1]), ("SHUNT_C", [some 1])], false⟩

/-- C1: the claimed iff is the intended behaviour (the comment at psse.py
1113-1114 says the bookkeeping rows are removed from the comparison, the
first check_compliance call of a run implements exactly the claimed iff, and
the spec's testable property demands that a 0.03-exact shunt deviation be
compliant), but the code deviates: the circuit-switching call inserts the
Compliant and Voltage Step Limit rows, and the subsequent shunt-switching
call re-admits those labels as NaN rows through the outer-join alignment of
its subtraction, so SHUNT_C is marked non-compliant although its step change
is 0 pu, within the 0.03 pu limit, at every bus; CONT_A itself and the
BASE_CASE row come out as claimed. -/
theorem spec_C1_label_row_contamination :
    stepConditionRow reactorStepChangeLimit 1 (some 1) = true ∧
    (busCheckComplianceStep c1FailingTable ["CONT_A"]
        contStepChangeLimit).2.complianceRowsInserted = true ∧
    alookup (mainStepComplianceTable c1FailingTable ["CONT_A"] ["SHUNT_C"]) "SHUNT_C"
      = some false ∧
    alookup (mainStepComplianceTable c1FailingTable ["CONT_A"] ["SHUNT_C"]) "CONT_A"
      = some true ∧
    alookup (mainStepComplianceTable c1FailingTable ["CONT_A"] ["SHUNT_C"]) bcName
      = some true := by
  refine ⟨?_, rfl, rfl, ?_, alookup_setRow_self _ _ _⟩
  · norm_num [stepConditionRow, reactorStepChangeLimit]
  · norm_num [mainStepComplianceTable, busCheckComplianceStep, c1FailingTable, getCol,
      alookup, setRow, stepConditionRow, contStepChangeLimit, bcName]

/-- C10: a contingency column recorded through update_voltages with the
non-convergence flag holds the NaN sentinel at every bus, and then the
step-change compliance check returns False for that contingency for every
threshold value, because the sentinel never satisfies the comparison against
the threshold; stated for a table with at least one bus row. -/
theorem spec_C10_nan_never_compliant (t : BusVoltageTable) (name : String) (limit : ℚ)
    (hbuses : t.pu ≠ []) :
    alookup (busCheckComplianceStep (updateVoltagesNonConvergent t name) [name] limit).1 name
      = some false := by
  have hcol : getCol (updateVoltagesNonConvergent t name) name
      = List.replicate t.pu.length none := by
    rw [getCol, updateVoltagesNonConvergent, alookup_setRow_self]
    rfl
  have hpu2 : (updateVoltagesNonConvergent t name).pu = t.pu := rfl
  cases hpu : t.pu with
  | nil => exact absurd hpu hbuses
  | cons x rest =>
      rw [hpu] at hcol
      simp [busCheckComplianceStep, alookup, hcol, hpu2, hpu, List.replicate, stepConditionRow]

/-- C10 witness: a one-bus table whose contingency column is the NaN sentinel
is non-compliant at the 0.1 pu threshold. -/
theorem spec_C10_nan_never_compliant_witness :
    alookup
      (busCheckComplianceStep (updateVoltagesNonConvergent ⟨[1], [], false⟩ "CONT_X")
        ["CONT_X"] (mkRat 1 10)).1 "CONT_X" = some false :=
  spec_C10_nan_never_compliant ⟨[1], [], false⟩ "CONT_X" (mkRat 1 10) (by simp)

/-! ## Reactive compensation search
(`Contingency.check_voltage_adjust_machines`, psse.py 1562-1637) -/

/-- Outcome of one search iteration's interaction with the solver: the warm
solve's convergence, the flat-start retry's convergence (consulted only when
the warm solve fails), and the within-limits check result with its reported
target bus (consulted only when one of the solves converged). -/
structure SolveOutcome where
  convergentWarm : Bool
  convergentFlat : Bool
  withinLimits : Bool
  targetBus : ℤ

/-- The local variables of `check_voltage_adjust_machines`: within_limits,
target_bus, target_voltage, target_q, targets_log and iter_count. -/
structure SearchState where
  withinLimits : Bool
  targetBus : ℤ
  targetVoltage : ℚ
  targetQ : ℚ
  targetsLog : List (ℤ × ℚ)
  iterCount : ℕ

/-- The while condition at psse.py 1588: not within_limits and
target_voltage > vmin_target and target_q > q_max.  The iteration counter is
not part of this condition in the source. -/
def searchGuard (st : SearchState) : Bool :=
  !st.withinLimits && decide (st.targetVoltage > vminTarget) && decide (st.targetQ > qMaxRC)

/-- The target-voltage update at psse.py 1590-1593: previous logged target for
the target bus minus v_step if the bus has history, else vmax_target. -/
def searchNextVoltage (st : SearchState) : ℚ :=
  match alookup st.targetsLog st.targetBus with
  | some prev => prev - vStepRC
  | none => vmaxTarget

/-- One iteration of the while loop (psse.py 1588-1635): update the voltage
target and reactive level, log the target, count the iteration, then solve
(warm, then flat start on failure); if both solves fail the iteration is a
continue with within_limits = False and the target bus unchanged, otherwise
within_limits and the target bus come from check_within_limits, with the
target bus reset to 0 when not test_target_bus.  The machine set-point writes
are solver side effects reflected in the oracle. -/
def searchIter (oracle : ℕ → SolveOutcome) (st : SearchState) : SearchState :=
  if !(oracle (st.iterCount + 1)).convergentWarm &&
      !(oracle (st.iterCount + 1)).convergentFlat then
    { withinLimits := false, targetBus := st.targetBus,
      targetVoltage := searchNextVoltage st, targetQ := st.targetQ + qStepRC,
      targetsLog := setRow st.targetsLog st.targetBus (searchNextVoltage st),
      iterCount := st.iterCount + 1 }
  else
    { withinLimits := (oracle (st.iterCount + 1)).withinLimits,
      targetBus := if testTargetBus then (oracle (st.iterCount + 1)).targetBus else 0,
      targetVoltage := searchNextVoltage st, targetQ := st.targetQ + qStepRC,
      targetsLog := setRow st.targetsLog st.targetBus (searchNextVoltage st),
      iterCount := st.iterCount + 1 }

/-- The while loop as a fuel-indexed iteration.  The fuel is an embedding
device only: `searchLoop_guard_false` below proves that with the fuel used in
`checkVoltageAdjustMachines` the loop always exits because its own condition
fails, never by fuel exhaustion. -/
def searchLoop (oracle : ℕ → SolveOutcome) : ℕ → SearchState → SearchState
  | 0, st => st
  | fuel + 1, st =>
      if searchGuard st then searchLoop oracle fuel (searchIter oracle st) else st

/-- The initialisation at psse.py 1573-1584: iter_count 0, empty log, an
initial check_within_limits call, target_voltage vmax_target, target_q q_min,
and the target bus reset to 0 when not test_target_bus. -/
def searchInit (oracle : ℕ → SolveOutcome) : SearchState :=
  { withinLimits := (oracle 0).withinLimits,
    targetBus := if testTargetBus then (oracle 0).targetBus else 0,
    targetVoltage := vmaxTarget, targetQ := qMinRC, targetsLog := [], iterCount := 0 }

/-- `Contingency.check_voltage_adjust_machines` as a whole. -/
def checkVoltageAdjustMachines (oracle : ℕ → SolveOutcome) : SearchState :=
  searchLoop oracle 400 (searchInit oracle)

theorem searchIter_iterCount (oracle : ℕ → SolveOutcome) (st : SearchState) :
    (searchIter oracle st).iterCount = st.iterCount + 1 := by
  rw [searchIter]; split <;> rfl

/-- State invariant of the search in the configuration shipped in
constants.py (test_target_bus = False): the target bus is always 0, the
reactive level is q_step times the iteration count, and after n+1 iterations
the log holds exactly the current target voltage for bus 0, which has been
decremented n times from vmax_target. -/
def searchInvariant (st : SearchState) : Prop :=
  st.targetBus = 0 ∧
  st.targetQ = (st.iterCount : ℚ) * qStepRC ∧
  (st.iterCount = 0 → st.targetsLog = [] ∧ st.targetVoltage = vmaxTarget) ∧
  (∀ m : ℕ, st.iterCount = m + 1 →
    st.targetsLog = [(0, st.targetVoltage)] ∧
    st.targetVoltage = vmaxTarget - (m : ℚ) * vStepRC)

theorem searchInit_invariant (oracle : ℕ → SolveOutcome) :
    searchInvariant (searchInit oracle) := by
  refine ⟨rfl, by norm_num [searchInit, qMinRC], fun _ => ⟨rfl, rfl⟩, fun m hm => ?_⟩
  simp [searchInit] at hm

theorem searchIter_invariant (oracle : ℕ → SolveOutcome) (st : SearchState)
    (h : searchInvariant st) : searchInvariant (searchIter oracle st) := by
  obtain ⟨hbus, hq, h0, hs⟩ := h
  have hnv : searchNextVoltage st = vmaxTarget - (st.iterCount : ℚ) * vStepRC := by
    cases hic : st.iterCount with
    | zero =>
        obtain ⟨hlog, _⟩ := h0 hic
        rw [searchNextVoltage, hbus, hlog]
        norm_num [alookup]
    | succ m =>
        obtain ⟨hlog, hv⟩ := hs m hic
        rw [searchNextVoltage, hbus, hlog]
        simp only [alookup, if_pos rfl]
        rw [hv]
        push_cast
        ring
  have hlog2 : setRow st.targetsLog st.targetBus (searchNextVoltage st)
      = [(0, searchNextVoltage st)] := by
    cases hic : st.iterCount with
    | zero =>
        obtain ⟨hlog, _⟩ := h0 hic
        rw [hbus, hlog]; rfl
    | succ m =>
        obtain ⟨hlog, _⟩ := hs m hic
        rw [hbus, hlog]
        simp [setRow]
  have hq2 : st.targetQ + qStepRC = ((st.iterCount + 1 : ℕ) : ℚ) * qStepRC := by
    rw [hq]; push_cast; ring
  rw [searchIter]
  split
  all_goals
    refine ⟨?_, ?_, ?_, ?_⟩
    · first
        | exact hbus
        | simp [testTargetBus]
    · show st.targetQ + qStepRC = ((st.iterCount + 1 : ℕ) : ℚ) * qStepRC
      exact hq2
    · intro hzero
      exact absurd hzero (Nat.succ_ne_zero _)
    · intro m hm
      have hm2 : st.iterCount + 1 = m + 1 := hm
      have hmm : st.iterCount = m := by omega
      constructor
      · show setRow st.targetsLog st.targetBus (searchNextVoltage st)
            = [(0, searchNextVoltage st)]
        exact hlog2
      · show searchNextVoltage st = vmaxTarget - (m : ℚ) * vStepRC
        rw [hnv, hmm]

theorem vStepRC_pos : 0 < vStepRC := by
  norm_num [vStepRC, vmaxTarget, vminTarget, maxIterationsRC]

theorem span_eq : vmaxTarget - vminTarget = 100 * vStepRC := by
  rw [vStepRC, maxIterationsRC]
  push_cast
  ring

theorem searchGuard_iterCount_le (st : SearchState) (h : searchInvariant st)
    (hg : searchGuard st = true) : st.iterCount ≤ 100 := by
  obtain ⟨hbus, hq, h0, hs⟩ := h
  cases hic : st.iterCount with
  | zero => omega
  | succ m =>
      obtain ⟨-, hv⟩ := hs m hic
      have hvg : st.targetVoltage > vminTarget := by
        have := (Bool.and_eq_true _ _).mp hg
        exact of_decide_eq_true ((Bool.and_eq_true _ _).mp this.1).2
      rw [hv] at hvg
      have hlt : (m : ℚ) * vStepRC < 100 * vStepRC := by
        have h1 : (m : ℚ) * vStepRC < vmaxTarget - vminTarget := by linarith
        rw [span_eq] at h1
        exact h1
      have hm : m < 100 := by
        have := (mul_lt_mul_right vStepRC_pos).mp hlt
        exact_mod_cast this
      omega

theorem searchLoop_iterCount_le (oracle : ℕ → SolveOutcome) :
    ∀ (fuel : ℕ) (st : SearchState), searchInvariant st → st.iterCount ≤ 101 →
      (searchLoop oracle fuel st).iterCount ≤ 101 := by
  intro fuel
  induction fuel with
  | zero => intro st _ hle; exact hle
  | succ f ih =>
      intro st h hle
      rw [searchLoop]
      by_cases hg : searchGuard st = true
      · rw [if_pos hg]
        refine ih (searchIter oracle st) (searchIter_invariant oracle st h) ?_
        rw [searchIter_iterCount]
        have := searchGuard_iterCount_le st h hg
        omega
      · rw [if_neg hg]
        exact hle

theorem searchLoop_guard_false (oracle : ℕ → SolveOutcome) :
    ∀ (fuel : ℕ) (st : SearchState), searchInvariant st → 201 ≤ st.iterCount + fuel →
      searchGuard (searchLoop oracle fuel st) = false := by
  intro fuel
  induction fuel with
  | zero =>
      intro st h hsum
      obtain ⟨-, hq, -, -⟩ := h
      have hiter : (201 : ℚ) ≤ (st.iterCount : ℚ) := by
        exact_mod_cast (by omega : 201 ≤ st.iterCount)
      have hqle : ¬(st.targetQ > qMaxRC) := by
        rw [hq, qStepRC, qMaxRC]
        intro hgt
        linarith
      have hd : decide (st.targetQ > qMaxRC) = false := decide_eq_false hqle
      simp [searchLoop, searchGuard, hd]
  | succ f ih =>
      intro st h hsum
      rw [searchLoop]
      by_cases hg : searchGuard st = true
      · rw [if_pos hg]
        refine ih (searchIter oracle st) (searchIter_invariant oracle st h) ?_
        rw [searchIter_iterCount]
        omega
      · rw [if_neg hg]
        simpa using hg

/-- C3 as amended: the while condition of the reactive compensation search
consists only of the within-limits flag, the voltage-target floor and the
reactive-dispatch floor; the iteration counter is incremented but never
consulted, so there is no 100-iteration cut-off.  The loop nevertheless always
exits through its own condition (never through the embedding fuel), and in the
shipped configuration (machine targeting, no remote target bus) every run
performs at most 101 iterations, because the voltage target reaches the
vmin_target floor after 101 decrements. -/
theorem spec_C3_termination_bounds (oracle : ℕ → SolveOutcome) :
    searchGuard (checkVoltageAdjustMachines oracle) = false ∧
    (checkVoltageAdjustMachines oracle).iterCount ≤ 101 := by
  constructor
  · exact searchLoop_guard_false oracle 400 (searchInit oracle) (searchInit_invariant oracle)
      (by norm_num [searchInit])
  · exact searchLoop_iterCount_le oracle 400 (searchInit oracle) (searchInit_invariant oracle)
      (by norm_num [searchInit])

/-- A solver oracle whose load flows always converge warm but whose
within-limits check never passes: the search then runs until a floor is hit. -/
def c3BadOracle : ℕ → SolveOutcome := fun _ => ⟨true, true, false, 0⟩

theorem searchIter_c3Bad_within (st : SearchState) :
    (searchIter c3BadOracle st).withinLimits = false := by
  rw [searchIter]
  simp [c3BadOracle]

theorem c3_guard_true (st : SearchState) (h : searchInvariant st)
    (hw : st.withinLimits = false) (hle : st.iterCount ≤ 100) : searchGuard st = true := by
  obtain ⟨hbus, hq, h0, hs⟩ := h
  have hv : st.targetVoltage > vminTarget := by
    cases hic : st.iterCount with
    | zero =>
        obtain ⟨-, hv0⟩ := h0 hic
        rw [hv0]
        norm_num [vmaxTarget, vminTarget]
    | succ m =>
        obtain ⟨-, hv1⟩ := hs m hic
        rw [hv1]
        have hm : (m : ℚ) ≤ 99 := by
          exact_mod_cast (by omega : m ≤ 99)
        have hmlt : (m : ℚ) < 100 := by linarith
        have h1 : (m : ℚ) * vStepRC < 100 * vStepRC :=
          (mul_lt_mul_right vStepRC_pos).mpr hmlt
        have h2 := span_eq
        linarith
  have hqp : st.targetQ > qMaxRC := by
    rw [hq, qStepRC, qMaxRC]
    have hcast : (st.iterCount : ℚ) ≤ 100 := by exact_mod_cast hle
    have hnn : (0 : ℚ) ≤ (st.iterCount : ℚ) := by positivity
    linarith
  simp [searchGuard, hw, hv, hqp]

theorem c3_guard_false_at_101 (st : SearchState) (h : searchInvariant st)
    (hic : st.iterCount = 101) : searchGuard st = false := by
  obtain ⟨-, -, -, hs⟩ := h
  obtain ⟨-, hv⟩ := hs 100 hic
  have hveq : st.targetVoltage = vminTarget := by
    rw [hv]
    have h2 := span_eq
    push_cast
    linarith
  have hnv : ¬(st.targetVoltage > vminTarget) := by
    rw [hveq]
    exact lt_irrefl _
  simp [searchGuard, hnv]

theorem c3_loop_exact :
    ∀ (fuel : ℕ) (st : SearchState), searchInvariant st → st.withinLimits = false →
      st.iterCount ≤ 101 → 101 ≤ st.iterCount + fuel →
      (searchLoop c3BadOracle fuel st).iterCount = 101 := by
  intro fuel
  induction fuel with
  | zero =>
      intro st _ _ h1 h2
      have : st.iterCount = 101 := by omega
      simpa [searchLoop] using this
  | succ f ih =>
      intro st h hw h1 h2
      by_cases hic : st.iterCount = 101
      · have hg := c3_guard_false_at_101 st h hic
        rw [searchLoop, hg]
        simpa using hic
      · have hle : st.iterCount ≤ 100 := by omega
        have hg := c3_guard_true st h hw hle
        rw [searchLoop, if_pos hg]
        refine ih (searchIter c3BadOracle st) (searchIter_invariant _ _ h)
          (searchIter_c3Bad_within st) ?_ ?_ <;>
          rw [searchIter_iterCount] <;> omega

/-- C3 fails on the code: with a solver that always converges but never
reaches the voltage limits, the search performs 101 iterations, exceeding the
claimed bound of max_iterations = 100.  The while condition never consults the
iteration counter; termination here comes from the voltage-target floor. -/
theorem spec_C3_counterexample :
    (checkVoltageAdjustMachines c3BadOracle).iterCount = 101 ∧
    maxIterationsRC < (checkVoltageAdjustMachines c3BadOracle).iterCount := by
  have h := c3_loop_exact 400 (searchInit c3BadOracle) (searchInit_invariant _) rfl
    (by norm_num [searchInit]) (by norm_num [searchInit])
  have h2 : (checkVoltageAdjustMachines c3BadOracle).iterCount = 101 := h
  refine ⟨h2, ?_⟩
  rw [h2]
  norm_num [maxIterationsRC]

/-! ## Contingency executor (`Contingency.test_contingency`, psse.py 1457-1560) -/

/-- Python exception classes raised by the scripts.  `valueError` is raised
for branch/shunt/3-winding data imports, case-load failures and an empty
contingency workbook; `scriptError` stands for the Python SyntaxError the
scripts raise for internal fatal errors (persistent islanding, invalid solver
options, bus and machine data retrieval); `ioError` for converted generators
and no-in-service-buses; `importError` for PSSE initialisation failure. -/
inductive PyExc
  | valueError
  | scriptError
  | ioError
  | importError
deriving DecidableEq

/-- Result of one `PsseControl.run_load_flow` call as consumed by
test_contingency: the convergence flag and the islanded-busbar rows (bus
number and reported state) returned when the solver signals islands without a
swing bus (psse.py 1762-1765); empty otherwise. -/
structure LoadFlowOutcome where
  convergent : Bool
  islanded : List (ℤ × ℤ)
deriving DecidableEq

/-- Solver-state oracle for one call of test_contingency: the two possible
taps-locked solves, the voltages read after a convergent step solve, the
steady-state warm solve, flat-start retry and warm resume, and the voltages
read at the end of the steady phase. -/
structure TCEnv where
  lockTaps1 : LoadFlowOutcome
  lockTaps2 : LoadFlowOutcome
  stepVoltages : List ℚ
  steadyWarm : Bool
  steadyFlat : Bool
  steadyWarm2 : Bool
  steadyVoltages : List ℚ
deriving DecidableEq

/-- Everything `test_contingency` wrote and returned: the updated step and
steady voltage tables, the bus-state column written for islanded busbars, the
numbers of taps-locked and steady-phase solve calls (the compensation
search's own solves are abstracted by its oracle and not counted here), the
two convergence flags, whether the search was invoked, and the Python return
value. -/
structure TCState where
  stepTable : BusVoltageTable
  steadyTable : BusVoltageTable
  islandedWritten : Option (List (ℤ × ℤ))
  lockTapsSolves : ℕ
  steadySolves : ℕ
  convergentVStep : Bool
  convergentVSteady : Bool
  searchInvoked : Bool
  returnValue : Bool

/-- `Contingency.test_contingency` (psse.py 1457-1560).  Not-set-up
contingencies record the NaN sentinel in both voltage tables and return False
without solving.  Otherwise: a taps-locked solve; if it reports islanded
busbars they are recorded in the bus snapshot for this contingency
(`add_islanded_busbars`) and the solve is repeated once, a second islanded
report raising the fatal script error; then the step voltages or the NaN
sentinel are recorded according to convergence; then the steady phase (warm,
flat-start retry, warm resume), which on full non-convergence without
adjust_reactive records the sentinel and leaves steady non-convergent, and
otherwise (convergent, or adjust_reactive set) runs the optional compensation
search, marks steady convergent and records the final voltages.  The
target_shunts initial machine zeroing (psse.py 1484-1486) is skipped because
target_shunts is False in constants.py. -/
def testContingency (name : String) (setupCorrectly adjustReactive : Bool) (env : TCEnv)
    (stepT steadyT : BusVoltageTable) : Except PyExc TCState :=
  if !setupCorrectly then
    Except.ok
      { stepTable := updateVoltagesNonConvergent stepT name,
        steadyTable := updateVoltagesNonConvergent steadyT name,
        islandedWritten := none, lockTapsSolves := 0, steadySolves := 0,
        convergentVStep := false, convergentVSteady := false,
        searchInvoked := false, returnValue := false }
  else
    let stepRes : Except PyExc (Bool × Option (List (ℤ × ℤ)) × ℕ) :=
      if env.lockTaps1.islanded.isEmpty then
        Except.ok (env.lockTaps1.convergent, none, 1)
      else if env.lockTaps2.islanded.isEmpty then
        Except.ok (env.lockTaps2.convergent, some env.lockTaps1.islanded, 2)
      else
        Except.error PyExc.scriptError
    match stepRes with
    | Except.error e => Except.error e
    | Except.ok (convStep, isl, nLock) =>
        let stepT2 := if convStep then updateVoltagesFrom stepT name env.stepVoltages
                      else updateVoltagesNonConvergent stepT name
        let steadyConv := if env.steadyWarm then true
                          else if env.steadyFlat then env.steadyWarm2 else false
        let nSteady : ℕ := if env.steadyWarm then 1 else if env.steadyFlat then 3 else 2
        if !steadyConv && !adjustReactive then
          Except.ok
            { stepTable := stepT2,
              steadyTable := updateVoltagesNonConvergent steadyT name,
              islandedWritten := isl, lockTapsSolves := nLock, steadySolves := nSteady,
              convergentVStep := convStep, convergentVSteady := false,
              searchInvoked := false, returnValue := true }
        else
          Except.ok
            { stepTable := stepT2,
              steadyTable := updateVoltagesFrom steadyT name env.steadyVoltages,
              islandedWritten := isl, lockTapsSolves := nLock, steadySolves := nSteady,
              convergentVStep := convStep, convergentVSteady := true,
              searchInvoked := adjustReactive, returnValue := true }

/-- C6: if any individual element switch fails while setting up a contingency
(that is not the base case), the contingency is marked not set up correctly,
and testing it attempts no load-flow solve and records the non-numeric
non-convergent sentinel for it in both the step-change and the steady-state
voltage tables, returning False. -/
theorem spec_C6_switch_failure (c : ContingencyDef) (r : SwitchRow)
    (adjustReactive : Bool) (env : TCEnv) (stepT steadyT : BusVoltageTable)
    (hr : r ∈ allSwitchRows c) (hfail : r.switchOk = false) (hbc : c.name ≠ bcName) :
    setupContingency c = false ∧
    testContingency c.name (setupContingency c) adjustReactive env stepT steadyT =
      Except.ok
        { stepTable := updateVoltagesNonConvergent stepT c.name,
          steadyTable := updateVoltagesNonConvergent steadyT c.name,
          islandedWritten := none, lockTapsSolves := 0, steadySolves := 0,
          convergentVStep := false, convergentVSteady := false,
          searchInvoked := false, returnValue := false } := by
  have hsetup : setupContingency c = false := by
    rw [setupContingency, if_neg hbc]
    refine Bool.eq_false_iff.mpr (fun hall => ?_)
    have := List.all_eq_true.mp hall r hr
    rw [hfail] at this
    exact Bool.false_ne_true this
  refine ⟨hsetup, ?_⟩
  rw [hsetup]
  rfl

/-- C6 witness: a contingency CONT_B with a single failing circuit switch. -/
theorem spec_C6_switch_failure_witness :
    setupContingency ⟨"CONT_B", [⟨false⟩], [], [], [], [], []⟩ = false ∧
    testContingency "CONT_B" (setupContingency ⟨"CONT_B", [⟨false⟩], [], [], [], [], []⟩)
        false ⟨⟨true, []⟩, ⟨true, []⟩, [], true, true, true, []⟩ ⟨[1], [], false⟩ ⟨[1], [], false⟩ =
      Except.ok
        { stepTable := updateVoltagesNonConvergent ⟨[1], [], false⟩ "CONT_B",
          steadyTable := updateVoltagesNonConvergent ⟨[1], [], false⟩ "CONT_B",
          islandedWritten := none, lockTapsSolves := 0, steadySolves := 0,
          convergentVStep := false, convergentVSteady := false,
          searchInvoked := false, returnValue := false } :=
  spec_C6_switch_failure ⟨"CONT_B", [⟨false⟩], [], [], [], [], []⟩ ⟨false⟩ false
    ⟨⟨true, []⟩, ⟨true, []⟩, [], true, true, true, []⟩ ⟨[1], [], false⟩ ⟨[1], [], false⟩
    (by simp [allSwitchRows]) rfl (by simp [bcName])

/-- C7: when the taps-locked solve reports busbars islanded without a swing
bus, those busbars and their reported states are recorded in the bus snapshot
for the current contingency and the solve is retried exactly once; if the
retry still reports islanded busbars, the fatal script error is raised
instead of an ordinary non-convergent result. -/
theorem spec_C7_islanding_retry (name : String) (adjustReactive : Bool) (env : TCEnv)
    (stepT steadyT : BusVoltageTable)
    (hisl : env.lockTaps1.islanded ≠ []) :
    (env.lockTaps2.islanded ≠ [] →
      testContingency name true adjustReactive env stepT steadyT =
        Except.error PyExc.scriptError) ∧
    (env.lockTaps2.islanded = [] →
      ∃ s : TCState,
        testContingency name true adjustReactive env stepT steadyT = Except.ok s ∧
        s.islandedWritten = some env.lockTaps1.islanded ∧
        s.lockTapsSolves = 2) := by
  have h1 : env.lockTaps1.islanded.isEmpty = false := by
    cases henv : env.lockTaps1.islanded with
    | nil => exact absurd henv hisl
    | cons a l => rfl
  constructor
  · intro h2
    have h2e : env.lockTaps2.islanded.isEmpty = false := by
      cases henv : env.lockTaps2.islanded with
      | nil => exact absurd henv h2
      | cons a l => rfl
    rw [testContingency]
    simp [h1, h2e]
  · intro h2
    have h2e : env.lockTaps2.islanded.isEmpty = true := by rw [h2]; rfl
    rw [testContingency]
    simp only [h1, h2e, Bool.not_true, Bool.false_eq_true, if_false, if_true]
    split_ifs <;> exact ⟨_, rfl, rfl, rfl⟩

/-- C7 witness: bus 5 is reported islanded by the first taps-locked solve and
the retry reports islanding again, so the fatal script error is raised. -/
theorem spec_C7_islanding_retry_witness :
    ((⟨⟨false, [(5, 1)]⟩, ⟨false, [(5, 1)]⟩, [], true, true, true, []⟩ :
        TCEnv).lockTaps2.islanded ≠ [] →
      testContingency "CONT_C" true false
          ⟨⟨false, [(5, 1)]⟩, ⟨false, [(5, 1)]⟩, [], true, true, true, []⟩
          ⟨[1], [], false⟩ ⟨[1], [], false⟩ =
        Except.error PyExc.scriptError) ∧
    ((⟨⟨false, [(5, 1)]⟩, ⟨false, [(5, 1)]⟩, [], true, true, true, []⟩ :
        TCEnv).lockTaps2.islanded = [] →
      ∃ s : TCState,
        testContingency "CONT_C" true false
            ⟨⟨false, [(5, 1)]⟩, ⟨false, [(5, 1)]⟩, [], true, true, true, []⟩
            ⟨[1], [], false⟩ ⟨[1], [], false⟩ = Except.ok s ∧
        s.islandedWritten = some [(5, 1)] ∧
        s.lockTapsSolves = 2) :=
  spec_C7_islanding_retry "CONT_C" false
    ⟨⟨false, [(5, 1)]⟩, ⟨false, [(5, 1)]⟩, [], true, true, true, []⟩
    ⟨[1], [], false⟩ ⟨[1], [], false⟩ (by simp)

/-! ## Batch loop over network cases (`Main.py` 281-297) -/

/-- Whether the batch loop handles one case outcome without aborting: the
try/except around `main` catches only ValueError (Main.py 286-296); any other
exception propagates out of the loop. -/
def batchCaseHandled (outcome : Except PyExc Unit) : Bool :=
  match outcome with
  | Except.ok _ => true
  | Except.error PyExc.valueError => true
  | Except.error _ => false

/-- Number of selected cases the batch loop attempts before finishing or
being aborted by an uncaught exception. -/
def batchAttempted : List (Except PyExc Unit) → ℕ
  | [] => 0
  | c :: rest => if batchCaseHandled c then 1 + batchAttempted rest else 1

/-- C8 fails on the code: a first case that raises the script-internal fatal
error (Python SyntaxError, e.g. persistent islanding after the one retry, or
a bus-data retrieval failure) is not caught by the batch handler, which
catches only ValueError, so the second selected case is never attempted. -/
theorem spec_C8_counterexample :
    batchAttempted [Except.error PyExc.scriptError, Except.ok ()] = 1 ∧
    ([Except.error PyExc.scriptError, Except.ok ()] : List (Except PyExc Unit)).length = 2 ∧
    batchCaseHandled (Except.error PyExc.scriptError) = false :=
  ⟨rfl, rfl, rfl⟩

/-- C8 as amended: the batch level catches and logs exactly the ValueError
class of fatal errors (case-load failures, empty contingency workbook,
branch/shunt/3-winding data retrieval) and then continues, so a batch whose
failures are all ValueError attempts every selected case; fatal errors raised
as SyntaxError, IOError or ImportError propagate and abort the remaining
cases. -/
theorem spec_C8_only_valueerror_caught (outcomes : List (Except PyExc Unit))
    (h : ∀ c ∈ outcomes, c = Except.ok () ∨ c = Except.error PyExc.valueError) :
    batchAttempted outcomes = outcomes.length := by
  induction outcomes with
  | nil => rfl
  | cons c rest ih =>
      have hc : batchCaseHandled c = true := by
        rcases h c (List.mem_cons_self c rest) with h1 | h1 <;> rw [h1] <;> rfl
      have hrest := ih (fun x hx => h x (List.mem_cons_of_mem c hx))
      rw [batchAttempted, if_pos hc, hrest, List.length_cons]
      omega

/-- C8 amended witness: a two-case batch in which the first case fails with
ValueError attempts both cases. -/
theorem spec_C8_only_valueerror_caught_witness :
    batchAttempted [Except.error PyExc.valueError, Except.ok ()] =
      ([Except.error PyExc.valueError, Except.ok ()] : List (Except PyExc Unit)).length :=
  spec_C8_only_valueerror_caught [Except.error PyExc.valueError, Except.ok ()] (by simp)

/-! ## Study orchestrator aggregation (`Main.main`, Main.py 180-241) -/

/-- Comparison `a >= b` between possibly-NaN values: false whenever either
side is NaN. -/
def vgeOpt : Option ℚ → Option ℚ → Bool
  | some a, some b => decide (a ≥ b)
  | _, _ => false

/-- The steady-state voltage DataFrame of `BusData` as consumed by
`check_compliance` without a step limit (psse.py 1088-1104): the per-bus band
limits inserted by `add_voltage_limits` plus one column per contingency. -/
structure BusSteadyTable where
  lowerLimit : List (Option ℚ)
  upperLimit : List (Option ℚ)
  cols : List (String × List (Option ℚ))

/-- Column of the steady table for a contingency name. -/
def getColS (t : BusSteadyTable) (n : String) : List (Option ℚ) :=
  (alookup t.cols n).getD []

/-- Per-bus steady-state condition (psse.py 1094-1095): voltage within the
upper and lower band limits, false on NaN. -/
def steadyConditionRow (lo hi v : Option ℚ) : Bool :=
  vleOpt v hi && vgeOpt v lo

/-- `BusData.check_compliance` without a voltage_step_limit: one boolean per
contingency name, true when the steady condition holds at every bus row. -/
def busCheckComplianceSteady (t : BusSteadyTable) (names : List String) :
    List (String × Bool) :=
  names.map (fun n =>
    (n, ((t.lowerLimit.zip t.upperLimit).zip (getColS t n)).all
      (fun p => steadyConditionRow p.1.1 p.1.2 p.2)))

/-- The contingency_convergence DataFrame of `Main.main`: the BASE_CASE row
is seeded with (Convergent, True) before the contingency loop (Main.py
186-187), then each processed contingency sets its own row (Main.py
216-217). -/
def mainConvergenceTable (entries : List (String × String × Bool)) :
    List (String × String × Bool) :=
  entries.foldl (fun tbl e => setRow tbl e.1 e.2) [(bcName, (convergentMsg, true))]

/-- One row of the combined contingency_compliance table (Main.py 241): the
convergence message and flag plus one compliance boolean per dataset; `none`
when the dataset has no entry for that row label. -/
structure ComplianceReportRow where
  message : Option String
  convergence : Option Bool
  vStep : Option Bool
  vSteady : Option Bool
  circuitLoading : Option Bool
  tx2Loading : Option Bool
  tx3Loading : Option Bool

/-- The inputs of the final aggregation in `Main.main`: the per-contingency
convergence entries recorded by the loop, the snapshot tables, and the
classification lists. -/
structure StudyInputs where
  convergenceEntries : List (String × String × Bool)
  stepTable : BusVoltageTable
  steadyTable : BusSteadyTable
  circuitRatea : List ℚ
  circuitCols : List (String × List ℚ)
  tx2Ratea : List ℚ
  tx2Cols : List (String × List ℚ)
  tx3Ratea : List ℚ
  tx3Cols : List (String × List ℚ)
  circuitSwitching : List String
  shuntSwitching : List String

/-- One row of the aggregated report assembled in Main.py 219-241: the step
compliance table is built over the classification lists with the BASE_CASE
override, while the steady-voltage and the three loading compliance checks
run over all_cont_names = circuit_switching + shunt_switching only. -/
def mainComplianceRow (d : StudyInputs) (n : String) : ComplianceReportRow :=
  let allNames := d.circuitSwitching ++ d.shuntSwitching
  let conv := alookup (mainConvergenceTable d.convergenceEntries) n
  { message := conv.map Prod.fst,
    convergence := conv.map Prod.snd,
    vStep := alookup (mainStepComplianceTable d.stepTable d.circuitSwitching d.shuntSwitching) n,
    vSteady := alookup (busCheckComplianceSteady d.steadyTable allNames) n,
    circuitLoading :=
      alookup (branchCheckCompliance ratingThreshold d.circuitRatea d.circuitCols allNames) n,
    tx2Loading :=
      alookup (branchCheckCompliance ratingThreshold d.tx2Ratea d.tx2Cols allNames) n,
    tx3Loading :=
      alookup (tx3wndCheckCompliance ratingThreshold d.tx3Ratea d.tx3Cols allNames) n }

theorem alookup_foldl_setRow {α : Type} (entries : List (String × α)) (tbl : List (String × α))
    (k : String) (h : k ∉ entries.map Prod.fst) :
    alookup (entries.foldl (fun t e => setRow t e.1 e.2) tbl) k = alookup tbl k := by
  induction entries generalizing tbl with
  | nil => rfl
  | cons e rest ih =>
      have hk : k ∉ rest.map Prod.fst := fun hc => h (by simp [hc])
      have hke : k ≠ e.1 := fun hc => h (by simp [hc])
      rw [List.foldl_cons, ih (setRow tbl e.1 e.2) hk, alookup_setRow_ne _ _ _ _ hke]

/-- A concrete study with one circuit-switching contingency CONT_A: the
BASE_CASE row of the combined report. -/
def studyC9 : StudyInputs :=
  { convergenceEntries := [("CONT_A", ("Convergent", true))],
    stepTable := ⟨[1], [("CONT_A", [some 1])], false⟩,
    steadyTable := ⟨[some 1], [some 1], [("CONT_A", [some 1])]⟩,
    circuitRatea := [100], circuitCols := [("CONT_A", [50])],
    tx2Ratea := [100], tx2Cols := [("CONT_A", [50])],
    tx3Ratea := [100], tx3Cols := [("CONT_A", [50])],
    circuitSwitching := ["CONT_A"], shuntSwitching := [] }

/-- C9 fails on the code: in a run whose workbook defines one contingency,
the BASE_CASE row of the combined report is seeded convergent and marked
compliant for the step-change dataset, but the steady-state voltage and
loading compliance datasets are computed only over the workbook contingency
names, so the base case has no entry (not a compliant mark) in them. -/
theorem spec_C9_counterexample :
    (mainComplianceRow studyC9 bcName).message = some convergentMsg ∧
    (mainComplianceRow studyC9 bcName).convergence = some true ∧
    (mainComplianceRow studyC9 bcName).vStep = some true ∧
    (mainComplianceRow studyC9 bcName).vSteady = none ∧
    (mainComplianceRow studyC9 bcName).circuitLoading = none ∧
    (mainComplianceRow studyC9 bcName).tx2Loading = none ∧
    (mainComplianceRow studyC9 bcName).tx3Loading = none :=
  ⟨rfl, rfl, rfl, rfl, rfl, rfl, rfl⟩

/-- C9 as amended: for every study in which BASE_CASE is not among the
workbook contingency names, the orchestrator seeds the BASE_CASE report row
as convergent with message "Convergent" without executing any switching or
solve for it and marks it compliant for the step-change voltage dataset, but
the steady-state voltage and the three loading compliance datasets contain no
BASE_CASE entry at all. -/
theorem spec_C9_base_case_row (d : StudyInputs)
    (h1 : bcName ∉ d.convergenceEntries.map Prod.fst)
    (h2 : bcName ∉ d.circuitSwitching) (h3 : bcName ∉ d.shuntSwitching) :
    mainComplianceRow d bcName =
      { message := some convergentMsg, convergence := some true, vStep := some true,
        vSteady := none, circuitLoading := none, tx2Loading := none, tx3Loading := none } := by
  have hall : bcName ∉ d.circuitSwitching ++ d.shuntSwitching := by
    intro hc
    rcases List.mem_append.mp hc with hc | hc
    · exact h2 hc
    · exact h3 hc
  have hconv : alookup (mainConvergenceTable d.convergenceEntries) bcName
      = some (convergentMsg, true) := by
    rw [mainConvergenceTable, alookup_foldl_setRow _ _ _ h1]
    simp [alookup]
  have hstep : alookup
      (mainStepComplianceTable d.stepTable d.circuitSwitching d.shuntSwitching) bcName
      = some true := alookup_setRow_self _ _ _
  have hsteady : alookup
      (busCheckComplianceSteady d.steadyTable (d.circuitSwitching ++ d.shuntSwitching)) bcName
      = none := alookup_map_not_mem _ _ _ hall
  have hcl : alookup (branchCheckCompliance ratingThreshold d.circuitRatea d.circuitCols
      (d.circuitSwitching ++ d.shuntSwitching)) bcName = none :=
    alookup_map_not_mem _ _ _ hall
  have ht2 : alookup (branchCheckCompliance ratingThreshold d.tx2Ratea d.tx2Cols
      (d.circuitSwitching ++ d.shuntSwitching)) bcName = none :=
    alookup_map_not_mem _ _ _ hall
  have ht3 : alookup (tx3wndCheckCompliance ratingThreshold d.tx3Ratea d.tx3Cols
      (d.circuitSwitching ++ d.shuntSwitching)) bcName = none :=
    alookup_map_not_mem _ _ _ hall
  rw [mainComplianceRow]
  simp only [hconv, hstep, hsteady, hcl, ht2, ht3]
  rfl

/-- C9 amended witness: the concrete one-contingency study above satisfies
the hypotheses and exhibits the described BASE_CASE row. -/
theorem spec_C9_base_case_row_witness :
    mainComplianceRow studyC9 bcName =
      { message := some convergentMsg, convergence := some true, vStep := some true,
        vSteady := none, circuitLoading := none, tx2Loading := none, tx3Loading := none } :=
  spec_C9_base_case_row studyC9 (by simp [studyC9, bcName]) (by simp [studyC9, bcName])
    (by simp [studyC9])
